import Mathlib

/-! Verification of the join-and-aggregate engine of `src/streamlit_app.py`:
the catalog index builder, the line-item resolver, the grouping/subtotal
aggregator and the pallet estimator, shallowly embedded over exact rationals
and a small dynamic value type. -/

unseal Rat.mul Rat.add Rat.sub Rat.inv

deriving instance DecidableEq for Except

/-- Dynamic scalar value of the Python program: the null value `None`, a
string, or a number. Machine numbers are modelled as exact rationals. -/
inductive Val where
  | none
  | str (s : String)
  | num (q : ℚ)
deriving DecidableEq

/-- Python truthiness for scalar values: `None`, `""` and `0` are falsy. -/
def Val.truthy : Val → Bool
  | Val.none => false
  | Val.str s => !s.isEmpty
  | Val.num q => decide (q ≠ 0)

/-- The `isinstance(x, (int, float))` test of the source. -/
def Val.isNum : Val → Bool
  | Val.num _ => true
  | _ => false

/-- Python `a or b` on scalar values (the source's defaulting idiom). -/
def pyOr (v dflt : Val) : Val := if v.truthy then v else dflt

/-- Floor of a rational, computationally (`q.num / q.den` in `ℤ`). -/
def qfloor (q : ℚ) : ℤ := q.num / q.den

/-- Rounding to the nearest integer, halves up. Python's `round` sends halves
to even over binary floats; no property proved below involves a tie, so the
tie-breaking rule is immaterial. -/
def qround (q : ℚ) : ℤ := qfloor (q + 1 / 2)

/-- Ceiling, computationally (models `int(np.ceil(...))`). -/
def qceil (q : ℚ) : ℤ := -qfloor (-q)

/-- Python `round(q, nd)`: rounding at `nd` decimal places. -/
def roundTo (nd : ℕ) (q : ℚ) : ℚ := (qround (q * (10 : ℚ) ^ nd) : ℚ) / (10 : ℚ) ^ nd

/-- Numeric value of a digit list, most significant digit first. -/
def digitsToNat (cs : List Char) : ℕ := cs.foldl (fun a c => a * 10 + (c.toNat - 48)) 0

/-- Parse an unsigned decimal `digits[.digits]` with at least one digit.
Models the plain decimal forms accepted by Python `float(...)` and
`pd.to_numeric`; exotic forms (exponents, `inf`, `nan`) do not occur in this
data and count as unparseable. -/
def parseUnsigned (cs : List Char) : Option ℚ :=
  let ip := cs.takeWhile Char.isDigit
  match cs.dropWhile Char.isDigit with
  | [] => if ip.isEmpty then Option.none else some (digitsToNat ip : ℚ)
  | '.' :: frac =>
    if frac.all Char.isDigit && !(ip.isEmpty && frac.isEmpty) then
      some ((digitsToNat ip : ℚ) + (digitsToNat frac : ℚ) / (10 : ℚ) ^ frac.length)
    else Option.none
  | _ => Option.none

/-- Parse a possibly signed decimal string. -/
def parseDecimal (s : String) : Option ℚ :=
  match s.data with
  | '-' :: rest => (parseUnsigned rest).map (fun q => -q)
  | '+' :: rest => parseUnsigned rest
  | cs => parseUnsigned cs

/-- Best-effort numeric view of a value: `float(raw)` under `try/except` in
the attribute scan, and `pd.to_numeric(..., errors="coerce")` on the
subtotal columns. -/
def tryFloat : Val → Option ℚ
  | Val.num q => some q
  | Val.str s => parseDecimal s
  | Val.none => Option.none

/-- A Python dict with string keys and scalar values, e.g. one attribute
record `{name, value}` of a catalog product. -/
abbrev Attr := List (String × Val)

/-- Python `d.get(k)` (absent key yields `None`). -/
def dictGet (d : Attr) (k : String) : Val :=
  match d.find? (fun e => decide (e.1 = k)) with
  | some e => e.2
  | Option.none => Val.none

/-- Python `d.get(k, dflt)`. -/
def dictGetD (d : Attr) (k : String) (dflt : Val) : Val :=
  match d.find? (fun e => decide (e.1 = k)) with
  | some e => e.2
  | Option.none => dflt

/-- One raw product record, as consumed by `build_product_lookup`. The source
reads every field through `.get`, under which an absent key and an explicit
`None` coincide; both are `Val.none`. The attribute list is `Option`al:
absent/`None` versus a list of attribute dicts. -/
structure Product where
  id : Val
  productId : Val
  name : Val
  sku : Val
  stock : Val
  weight : Val
  attributes : Option (List Attr)
deriving DecidableEq

/-- The normalized per-product info stored in the catalog index
(lines 63–69 of the source). -/
structure ProdInfo where
  product : Val
  sku : Val
  stockReal : Val
  weight : Val
  attributes : Option (List Attr)
deriving DecidableEq

/-- Identifier of a product record: `p.get("id") or p.get("productId")`. -/
def pidOf (p : Product) : Val := pyOr p.id p.productId

/-- The info dict stored in the lookup for one record. -/
def infoOf (p : Product) : ProdInfo := ⟨p.name, p.sku, p.stock, p.weight, p.attributes⟩

/-- The catalog index: an insertion-ordered association list with unique
keys, modelling the Python dict. -/
abbrev Lookup := List (Val × ProdInfo)

/-- Python `lookup[k] = v`: replace in place when the key exists, else append
at the end. -/
def assocSet (k : Val) (v : ProdInfo) : Lookup → Lookup
  | [] => [(k, v)]
  | e :: rest => if e.1 = k then (k, v) :: rest else e :: assocSet k v rest

/-- Python `lookup[k]` resp. `k in lookup`. -/
def assocGet (m : Lookup) (k : Val) : Option ProdInfo :=
  match m.find? (fun e => decide (e.1 = k)) with
  | some e => some e.2
  | Option.none => Option.none

/-- Source `build_product_lookup` (lines 59–70): index every record under its
resolved identifier; note that a record whose identifier resolves to `None`
is still stored, under the key `None`. -/
def build_product_lookup (products : List Product) : Lookup :=
  products.foldl (fun lookup p => assocSet (pidOf p) (infoOf p) lookup) []

/-- One order line of a document's `products` list. `units` is an `Option`
because the source reads `item.get("units", 0)`: an absent key defaults to
`0` while a key explicitly set to `None` stays `None`. The other fields are
read with plain `.get`, where absent and `None` coincide. -/
structure Item where
  productId : Val
  id : Val
  units : Option Val
  name : Val
  sku : Val
  weight : Val
deriving DecidableEq

/-- Line 87: `item.get("productId") if item.get("productId") is not None
else item.get("id")`. -/
def pidOfItem (it : Item) : Val :=
  if it.productId ≠ Val.none then it.productId else it.id

/-- Line 88: `item.get("units", 0)`. -/
def unitsOf (it : Item) : Val := it.units.getD (Val.num 0)

/-- Branch test of the resolver (line 90): `pid is not None and pid in
product_lookup`. -/
def lookupOf (lookup : Lookup) (it : Item) : Option ProdInfo :=
  if pidOfItem it = Val.none then Option.none else assocGet lookup (pidOfItem it)

/-- State of the attribute scan: the three dimensions and the subcategory. -/
structure ScanSt where
  ancho : Option ℚ
  alto : Option ℚ
  fondo : Option ℚ
  subcat : Val
deriving DecidableEq

/-- Initial scan state: no dimensions, the sentinel subcategory label. -/
def initScan : ScanSt :=
  ⟨Option.none, Option.none, Option.none, Val.str "Sin línea de productos"⟩

/-- One iteration of the attribute loop (lines 100–115): record a subcategory
value first, then try a numeric parse, silently skipping the attribute when
the parse fails. -/
def scanStep (st : ScanSt) (a : Attr) : ScanSt :=
  let name := dictGetD a "name" (Val.str "")
  let raw := dictGet a "value"
  let st1 := if name = Val.str "Product Line" ∨ name = Val.str "3. Product Line" then
    { st with subcat := raw } else st
  match tryFloat raw with
  | Option.none => st1
  | some v =>
    if name = Val.str "Ancho [cm]" then { st1 with ancho := some v }
    else if name = Val.str "Alto [cm]" then { st1 with alto := some v }
    else if name = Val.str "Fondo [cm]" then { st1 with fondo := some v }
    else st1

/-- The attribute loop of Branch A. -/
def scanAttrs : List Attr → ScanSt → ScanSt
  | [], st => st
  | a :: rest, st => scanAttrs rest (scanStep st a)

/-- Python `stock >= units`. The callers guard the left operand to be
numeric, and Python 3 raises `TypeError` when a number is compared with a
non-number. -/
def pyGE : Val → Val → Except String Bool
  | Val.num a, Val.num b => Except.ok (decide (b ≤ a))
  | _, _ => Except.error "TypeError: comparison not supported"

/-- Python subtraction on report values; a non-numeric operand raises. -/
def pySub : Val → Val → Except String ℚ
  | Val.num a, Val.num b => Except.ok (a - b)
  | _, _ => Except.error "TypeError: sub not supported"

/-- Python multiplication as used in `round(net_w * units, 3)`: a truthy
non-numeric operand makes the expression raise (for a string operand the
failure surfaces at `round`; the observable outcome is the same raise). -/
def pyMul : Val → Val → Except String ℚ
  | Val.num a, Val.num b => Except.ok (a * b)
  | _, _ => Except.error "TypeError: mul not supported"

/-- Shortage computation of the resolver (lines 129–140): neutral when the
SKU is falsy or the stock is not numeric; otherwise compare stock against
units. The result triple is (Insuficiente?, Falta, Extra). -/
def shortageOf (sku stock units : Val) : Except String (Val × Val × Val) :=
  if !sku.truthy || !stock.isNum then Except.ok (Val.str "", Val.num 0, Val.num 0)
  else
    match pyGE stock units with
    | Except.error e => Except.error e
    | Except.ok true =>
      match pySub stock units with
      | Except.error e => Except.error e
      | Except.ok d => Except.ok (Val.str "", Val.num 0, Val.num d)
    | Except.ok false =>
      match pySub stock units with
      | Except.error e => Except.error e
      | Except.ok d => Except.ok (Val.str "STOCK INSUFICIENTE", Val.num (abs d), Val.num 0)

/-- Derived total weight (line 148): `round(net_w * units, 3)` when both are
truthy, else an explicit `None`. -/
def totalWeightOf (netW units : Val) : Except String Val :=
  if netW.truthy && units.truthy then
    match pyMul netW units with
    | Except.error e => Except.error e
    | Except.ok p => Except.ok (Val.num (roundTo 3 p))
  else Except.ok Val.none

/-- The values Branch A/B of the resolver feed into the common tail. -/
structure BranchOut where
  productName : Val
  sku : Val
  stock : Val
  netW : Val
  scan : ScanSt
deriving DecidableEq

/-- Branch selection (lines 90–123): a catalog hit takes the catalog fields
and scans the attribute list; a miss takes the inline fields with
`or`-defaults, an unknown (empty-string) stock and no dimensions. -/
def resolveBranch (lookup : Lookup) (it : Item) : BranchOut :=
  match lookupOf lookup it with
  | some info =>
    ⟨info.product, info.sku, info.stockReal, info.weight,
      scanAttrs (info.attributes.getD []) initScan⟩
  | Option.none =>
    ⟨pyOr it.name (Val.str ""), pyOr it.sku (Val.str ""), Val.str "",
      pyOr it.weight (Val.num 0), initScan⟩

/-- Volume (lines 125–127): set only when all three dimensions parsed. -/
def volumeOf (st : ScanSt) : Val :=
  match st.ancho, st.alto, st.fondo with
  | some a, some h, some f => Val.num (roundTo 5 (a * h * f / 1000000))
  | _, _, _ => Val.none

/-- One resolved line: the per-item dict built at lines 143–154. -/
structure RowData where
  product : Val
  sku : Val
  units : Val
  grossWeight : Val
  totalWeight : Val
  volume : Val
  stockReal : Val
  insuf : Val
  falta : Val
  extra : Val
deriving DecidableEq

/-- Resolution of one order line, paired with its subcategory group key. -/
def resolveItem (lookup : Lookup) (it : Item) : Except String (Val × RowData) :=
  match shortageOf (resolveBranch lookup it).sku (resolveBranch lookup it).stock (unitsOf it) with
  | Except.error e => Except.error e
  | Except.ok s =>
    match totalWeightOf (resolveBranch lookup it).netW (unitsOf it) with
    | Except.error e => Except.error e
    | Except.ok tw =>
      Except.ok ((resolveBranch lookup it).scan.subcat,
        ⟨(resolveBranch lookup it).productName, (resolveBranch lookup it).sku, unitsOf it,
          (resolveBranch lookup it).netW, tw, volumeOf (resolveBranch lookup it).scan,
          (resolveBranch lookup it).stock, s.1, s.2.1, s.2.2⟩)

/-- The item loop: resolve the lines left to right, the first raise
aborting the whole call. -/
def resolveAll (lookup : Lookup) : List Item → Except String (List (Val × RowData))
  | [] => Except.ok []
  | it :: rest =>
    match resolveItem lookup it with
    | Except.error e => Except.error e
    | Except.ok y =>
      match resolveAll lookup rest with
      | Except.error e => Except.error e
      | Except.ok ys => Except.ok (y :: ys)

/-- Line 155, `grouped.setdefault(subcat, []).append(data)`: append to an
existing group or open a new one at the end (dict insertion order). -/
def groupedInsert (g : List (Val × List RowData)) (sc : Val) (d : RowData) :
    List (Val × List RowData) :=
  if g.any (fun e => decide (e.1 = sc)) then
    g.map (fun e => if e.1 = sc then (e.1, e.2 ++ [d]) else e)
  else g ++ [(sc, [d])]

/-- Grouping of the resolved lines by subcategory label. -/
def groupedOf (resolved : List (Val × RowData)) : List (Val × List RowData) :=
  resolved.foldl (fun g r => groupedInsert g r.1 r.2) []

/-- Sort key `x.get("SKU") or ""` (line 159): the stored SKU when it is a
string, the empty string when it is falsy. A truthy non-string key would
make Python's heterogeneous `sorted` raise; such a key never occurs in the
properties below, whose group sums are order-independent anyway. -/
def skuKey : Val → String
  | Val.str s => s
  | _ => ""

/-- Lexicographic comparison of strings by code point, as Python compares
the SKU keys. -/
def listLt : List Char → List Char → Bool
  | [], [] => false
  | [], _ :: _ => true
  | _ :: _, [] => false
  | a :: as, b :: bs => decide (a < b) || (decide (a = b) && listLt as bs)

/-- Stable insertion into a list sorted by `skuKey`. -/
def insertBySku (d : RowData) : List RowData → List RowData
  | [] => [d]
  | e :: rest =>
    if listLt (skuKey e.sku).data (skuKey d.sku).data then e :: insertBySku d rest
    else d :: e :: rest

/-- Stable sort by SKU, empty/missing SKU first (Python `sorted` with the
`or ""` key). -/
def sortBySku : List RowData → List RowData
  | [] => []
  | d :: rest => insertBySku d (sortBySku rest)

/-- One row of the output table, in the published column order. A cell holds
the scalar the source wrote; `Val.none` stands for a pandas `NaN`, in
particular for the keys a member-row dict does not carry at all. -/
structure Row where
  sku : Val
  product : Val
  units : Val
  subUnits : Val
  grossWeight : Val
  totalWeight : Val
  subTotalWeight : Val
  volume : Val
  subVolume : Val
  stockReal : Val
  insuf : Val
  falta : Val
  subFalta : Val
  extra : Val
deriving DecidableEq

/-- Python `str(...)` as used inside the f-string labels. The rendering of a
number is abstract (numerator/denominator); no property below depends on the
digits of a label, only on the literal fragments around them. -/
def pyStr : Val → String
  | Val.none => "None"
  | Val.str s => s
  | Val.num q => toString q.num ++ "/" ++ toString q.den

/-- Group header label, line 170: `f"——— {subcat} ———"`. -/
def headerLabel (sc : Val) : String := "——— " ++ pyStr sc ++ " ———"

/-- Subtotal row label, line 178. -/
def subLabel (sc : Val) : String := "                         Subtotal " ++ pyStr sc

/-- The header pseudo-row: every cell the empty string except the label. -/
def headerRow (sc : Val) : Row :=
  ⟨Val.str "", Val.str (headerLabel sc), Val.str "", Val.str "", Val.str "",
   Val.str "", Val.str "", Val.str "", Val.str "", Val.str "", Val.str "",
   Val.str "", Val.str "", Val.str ""⟩

/-- A member row: the resolved cells; the four subtotal keys are absent from
the member dict and surface as `NaN` in the assembled frame. -/
def memberRow (d : RowData) : Row :=
  ⟨d.sku, d.product, d.units, Val.none, d.grossWeight, d.totalWeight, Val.none,
   d.volume, Val.none, d.stockReal, d.insuf, d.falta, Val.none, d.extra⟩

/-- Pandas `Series.sum(min_count=1)` over an already-coerced column: `NaN`
(`none`) when no value is numeric, else the sum of the numeric values. -/
def sumMinCount1 (l : List (Option ℚ)) : Option ℚ :=
  let nums := l.filterMap id
  if nums.isEmpty then Option.none else some nums.sum

/-- Python `x or 0` over a float that may be `NaN`: `NaN` is truthy and
survives, `0.0` is replaced by the integer `0` (the same value). -/
def orZero : Option ℚ → Option ℚ
  | Option.none => Option.none
  | some q => if q = 0 then some 0 else some q

/-- One subtotal cell (lines 180–189): coerce the column with
`pd.to_numeric(errors="coerce")`, sum with `min_count=1`, apply `or 0` and
round; a `NaN` stays `NaN` here and is filled later (line 206). -/
def rawSubCell (vals : List Val) (nd : ℕ) : Val :=
  match orZero (sumMinCount1 (vals.map tryFloat)) with
  | Option.none => Val.none
  | some s => Val.num (roundTo nd s)

/-- The subtotal pseudo-row of one group (lines 176–191). -/
def subtotalRowMk (sc : Val) (prods : List RowData) : Row :=
  ⟨Val.str "", Val.str (subLabel sc), Val.str "",
   rawSubCell (prods.map RowData.units) 1,
   Val.str "", Val.str "",
   rawSubCell (prods.map RowData.totalWeight) 2,
   Val.str "",
   rawSubCell (prods.map RowData.volume) 5,
   Val.str "", Val.str "", Val.str "",
   rawSubCell (prods.map RowData.falta) 0,
   Val.str ""⟩

/-- One group's output block (lines 163–191): header pseudo-row, the member
rows sorted by SKU, then the subtotal pseudo-row. -/
def groupBlock (sc : Val) (prods : List RowData) : List Row :=
  headerRow sc :: (sortBySku prods).map memberRow ++ [subtotalRowMk sc (sortBySku prods)]

/-- Prefix test on character lists. -/
def isPrefixB : List Char → List Char → Bool
  | [], _ => true
  | _ :: _, [] => false
  | a :: as, b :: bs => a = b && isPrefixB as bs

/-- Substring test on character lists. -/
def isInfixB (pat : List Char) : List Char → Bool
  | [] => isPrefixB pat []
  | c :: rest => isPrefixB pat (c :: rest) || isInfixB pat rest

/-- `df["Product"].str.contains("Subtotal", na=False)` on one cell: `False`
for a non-string product. -/
def containsSubtotal : Val → Bool
  | Val.str s => isInfixB "Subtotal".data s.data
  | _ => false

/-- `fillna(0)` on one cell: only a `NaN` becomes `0`. -/
def fillCell : Val → Val
  | Val.none => Val.num 0
  | v => v

/-- Fill the four subtotal columns of one row (lines 203–206). -/
def fillSubRow (r : Row) : Row :=
  { r with subUnits := fillCell r.subUnits,
           subTotalWeight := fillCell r.subTotalWeight,
           subVolume := fillCell r.subVolume,
           subFalta := fillCell r.subFalta }

/-- Apply the subtotal fill to the rows whose product label contains
"Subtotal". -/
def fillIf (r : Row) : Row := if containsSubtotal r.product then fillSubRow r else r

/-- The published column order (lines 209–214). -/
def reportCols : List String :=
  ["SKU", "Product", "Units", "Subtotal > Units",
   "Gross Weight (kg)", "Total Weight (kg)", "Subtotal > Total Weight (kg)",
   "Volume (m³)", "Subtotal > Volume (m³)",
   "Stock Real", "Insuficiente?", "Falta", "Subtotal > Falta", "Extra"]

/-- The assembled report: fixed column schema plus the ordered rows. -/
structure Report where
  columns : List String
  rows : List Row
deriving DecidableEq

/-- The `products` cell of a document row: either a list of order lines or
some other scalar. -/
inductive Cell where
  | list (items : List Item)
  | scalar (v : Val)
deriving DecidableEq

/-- Lines 81–83: `items = row["products"] or []` followed by the list-type
check; a falsy cell becomes the empty list, a truthy non-list raises. -/
def getItems : Cell → Except String (List Item)
  | Cell.list l => Except.ok l
  | Cell.scalar v =>
    if v.truthy then Except.error "TypeError: row products must be a list"
    else Except.ok []

/-- Source `get_products_info_for_row`: from the `products` cell of the
chosen document row and the catalog index to the assembled table. -/
def get_products_info_for_row (productsCell : Cell) (lookup : Lookup) :
    Except String Report :=
  match getItems productsCell with
  | Except.error e => Except.error e
  | Except.ok items =>
    match resolveAll lookup items with
    | Except.error e => Except.error e
    | Except.ok resolved =>
      let output := ((groupedOf resolved).map (fun g => groupBlock g.1 g.2)).flatten
      if output.isEmpty then Except.ok ⟨reportCols, []⟩
      else Except.ok ⟨reportCols, output.map fillIf⟩

/-- Pallets-by-weight resp. by-volume ratio (lines 315–323): the total
arrives as a `min_count=1` sum (`none` being `NaN`), passes `or 0`, a falsy
total yields `0` directly, and a `NaN` survives the division and rounding
but is mapped to `0` by the `pd.isna` guard. -/
def palletQuot (total : Option ℚ) (divisor : ℚ) : ℚ :=
  match orZero total with
  | Option.none => 0
  | some t => if t ≠ 0 then roundTo 3 (t / divisor) else 0

/-- `Pallets Needed`, line 325: `max(1, int(np.ceil(max(pw, pv))))`. -/
def palletsNeeded (totalWeight totalVolume : Option ℚ) : ℤ :=
  max 1 (qceil (max (palletQuot totalWeight 1300) (palletQuot totalVolume (1728 / 1000))))

/-- Written after the spec's words, for comparison with `palletQuot`: the
quotient rounded to 3 decimals, a null total yielding 0 rather than an
error. -/
def palletQuotSpec (total : Option ℚ) (divisor : ℚ) : ℚ :=
  match total with
  | Option.none => 0
  | some t => roundTo 3 (t / divisor)

/-! Helper lemmas. -/

theorem qround_zero : qround 0 = 0 := by decide

theorem roundTo_zero (nd : ℕ) : roundTo nd 0 = 0 := by
  unfold roundTo
  rw [zero_mul, qround_zero]
  simp

theorem isNum_iff (v : Val) : v.isNum = true ↔ ∃ q, v = Val.num q := by
  cases v <;> simp [Val.isNum]

theorem assocGet_cons (e : Val × ProdInfo) (tail : Lookup) (k : Val) :
    assocGet (e :: tail) k = if e.1 = k then some e.2 else assocGet tail k := by
  by_cases h : e.1 = k <;> simp [assocGet, List.find?, h]

theorem assocGet_set_self (m : Lookup) (k : Val) (v : ProdInfo) :
    assocGet (assocSet k v m) k = some v := by
  induction m with
  | nil => simp [assocSet, assocGet_cons]
  | cons e rest ih =>
    by_cases h : e.1 = k
    · simp [assocSet, h, assocGet_cons]
    · simp [assocSet, h, assocGet_cons, ih]

theorem assocGet_set_ne (m : Lookup) (k kp : Val) (v : ProdInfo) (h : kp ≠ k) :
    assocGet (assocSet kp v m) k = assocGet m k := by
  induction m with
  | nil => simp [assocSet, assocGet_cons, h, assocGet]
  | cons e rest ih =>
    by_cases he : e.1 = kp
    · simp only [assocSet, if_pos he, assocGet_cons]
      rw [if_neg h, if_neg (by rw [he]; exact h)]
    · simp only [assocSet, if_neg he, assocGet_cons]
      by_cases hek : e.1 = k
      · rw [if_pos hek, if_pos hek]
      · rw [if_neg hek, if_neg hek, ih]

theorem build_lookup_append (ps qs : List Product) :
    build_product_lookup (ps ++ qs) =
      qs.foldl (fun lookup p => assocSet (pidOf p) (infoOf p) lookup)
        (build_product_lookup ps) := by
  unfold build_product_lookup
  exact List.foldl_append _ _ _ _

theorem foldl_assocGet_untouched (qs : List Product) (m : Lookup) (k : Val)
    (h : ∀ q ∈ qs, pidOf q ≠ k) :
    assocGet (qs.foldl (fun lookup p => assocSet (pidOf p) (infoOf p) lookup) m) k =
      assocGet m k := by
  induction qs generalizing m with
  | nil => rfl
  | cons q rest ih =>
    simp only [List.foldl_cons]
    rw [ih _ (fun x hx => h x (List.mem_cons_of_mem q hx)),
      assocGet_set_ne _ _ _ _ (h q (List.mem_cons_self q rest))]

/-! Claim C10. -/

/-- C10: when two or more product records resolve to the same identifier,
`build_product_lookup` maps that identifier to the info of the last such
record in list order; later records silently overwrite earlier ones. -/
theorem c10_last_record_wins (ps : List Product) (p : Product) (qs : List Product)
    (h : ∀ q ∈ qs, pidOf q ≠ pidOf p) :
    assocGet (build_product_lookup (ps ++ p :: qs)) (pidOf p) = some (infoOf p) := by
  rw [build_lookup_append]
  simp only [List.foldl_cons]
  rw [foldl_assocGet_untouched qs _ _ h, assocGet_set_self]

def c10prodA : Product :=
  ⟨Val.str "X", Val.none, Val.str "First", Val.none, Val.num 1, Val.none, Option.none⟩

def c10prodB : Product :=
  ⟨Val.str "X", Val.none, Val.str "Second", Val.none, Val.num 2, Val.none, Option.none⟩

/-- Witness for C10 at two concrete records sharing the identifier "X": the
second record's info wins. -/
theorem c10_last_record_wins_witness :
    assocGet (build_product_lookup ([c10prodA] ++ c10prodB :: [])) (pidOf c10prodB) =
      some (infoOf c10prodB) ∧ infoOf c10prodB ≠ infoOf c10prodA := by
  exact ⟨c10_last_record_wins [c10prodA] c10prodB [] (by simp), by decide⟩

/-! Claim C5. -/

def c5prod : Product :=
  ⟨Val.none, Val.none, Val.str "Ghost", Val.str "G-1", Val.num 4, Val.num 1, Option.none⟩

/-- Counterexample to C5 as stated: a record whose identifier cannot be
resolved (both id fields absent) is not dropped; `build_product_lookup`
stores it under the key `None`, so it does contribute an entry. -/
theorem c5_lookup_counterexample :
    build_product_lookup [c5prod] = [(Val.none, infoOf c5prod)] ∧
    build_product_lookup [c5prod] ≠ [] := by
  exact ⟨by decide, by decide⟩

/-- C5 amended: a record with no resolvable identifier is not dropped but
stored under the `None` key, all such records collapsing into that single
entry with the last one winning; line-item resolution never consults the
`None` key; and an empty product list yields an empty index with no
error. -/
theorem c5_lookup_amended :
    build_product_lookup [] = [] ∧
    (∀ ps p qs, pidOf p = Val.none → (∀ q ∈ qs, pidOf q ≠ Val.none) →
      assocGet (build_product_lookup (ps ++ p :: qs)) Val.none = some (infoOf p)) ∧
    (∀ lookup it, pidOfItem it = Val.none → lookupOf lookup it = Option.none) := by
  refine ⟨rfl, ?_, ?_⟩
  · intro ps p qs hp hqs
    rw [build_lookup_append]
    simp only [List.foldl_cons]
    rw [hp, foldl_assocGet_untouched qs _ _ hqs, assocGet_set_self]
  · intro lookup it h
    simp [lookupOf, h]

/-- Witness for the amended C5: the identifier-less record above is
retrievable under the `None` key. -/
theorem c5_lookup_amended_witness :
    assocGet (build_product_lookup ([] ++ c5prod :: [])) Val.none = some (infoOf c5prod) := by
  exact c5_lookup_amended.2.1 [] c5prod [] (by decide) (by simp)

/-! Claim C2. -/

theorem palletQuot_eq_spec (total : Option ℚ) (divisor : ℚ) :
    palletQuot total divisor = palletQuotSpec total divisor := by
  match total with
  | Option.none => rfl
  | some t =>
    by_cases h : t = 0
    · subst h
      simp [palletQuot, palletQuotSpec, orZero, zero_div, roundTo_zero]
    · simp [palletQuot, palletQuotSpec, orZero, h]

/-- C2: the pallet estimate is a pure function of the report totals:
each ratio is the quotient (by 1300 resp. 1.728) rounded to 3 decimals with
a zero or null total giving 0 rather than an error, `Pallets Needed` is
`max(1, ceil(max(pw, pv)))`, and the totals 2600 kg and 1.0 m³ give
pw = 2.0, pv = 0.579 and 2 pallets. -/
theorem c2_pallet_estimate :
    (∀ total divisor, palletQuot total divisor = palletQuotSpec total divisor) ∧
    (∀ tw tv, palletsNeeded tw tv =
      max 1 (qceil (max (palletQuotSpec tw 1300) (palletQuotSpec tv (1728 / 1000))))) ∧
    palletQuot (some 2600) 1300 = 2 ∧
    palletQuot (some 1) (1728 / 1000) = 579 / 1000 ∧
    palletsNeeded (some 2600) (some 1) = 2 := by
  refine ⟨palletQuot_eq_spec, ?_, by decide, by decide, by decide⟩
  intro tw tv
  unfold palletsNeeded
  rw [palletQuot_eq_spec, palletQuot_eq_spec]

/-! Claim C9. -/

/-- C9: a document row with zero line items yields a well-formed empty
report: the full fixed 14-column schema with zero data rows, not an error
and not a zero-column table. -/
theorem c9_empty_report (cell : Cell) (lookup : Lookup)
    (h : getItems cell = Except.ok []) :
    get_products_info_for_row cell lookup = Except.ok ⟨reportCols, []⟩ ∧
    reportCols = ["SKU", "Product", "Units", "Subtotal > Units",
      "Gross Weight (kg)", "Total Weight (kg)", "Subtotal > Total Weight (kg)",
      "Volume (m³)", "Subtotal > Volume (m³)",
      "Stock Real", "Insuficiente?", "Falta", "Subtotal > Falta", "Extra"] ∧
    reportCols.length = 14 := by
  refine ⟨?_, rfl, rfl⟩
  unfold get_products_info_for_row
  rw [h]
  rfl

/-- Witness for C9 at the empty item list. -/
theorem c9_empty_report_witness :
    get_products_info_for_row (Cell.list []) [] = Except.ok ⟨reportCols, []⟩ := by
  exact (c9_empty_report (Cell.list []) [] rfl).1

/-! Resolver-level helper lemmas. -/

theorem resolveItem_ok_elim (lookup : Lookup) (it : Item) (sc : Val) (d : RowData)
    (h : resolveItem lookup it = Except.ok (sc, d)) :
    ∃ sr tw,
      shortageOf (resolveBranch lookup it).sku (resolveBranch lookup it).stock (unitsOf it) =
        Except.ok sr ∧
      totalWeightOf (resolveBranch lookup it).netW (unitsOf it) = Except.ok tw ∧
      sc = (resolveBranch lookup it).scan.subcat ∧
      d = ⟨(resolveBranch lookup it).productName, (resolveBranch lookup it).sku, unitsOf it,
           (resolveBranch lookup it).netW, tw, volumeOf (resolveBranch lookup it).scan,
           (resolveBranch lookup it).stock, sr.1, sr.2.1, sr.2.2⟩ := by
  unfold resolveItem at h
  cases hs : shortageOf (resolveBranch lookup it).sku (resolveBranch lookup it).stock
      (unitsOf it) with
  | error e => simp only [hs] at h; cases h
  | ok sr =>
    cases htw : totalWeightOf (resolveBranch lookup it).netW (unitsOf it) with
    | error e => simp only [hs, htw] at h; cases h
    | ok tw =>
      simp only [hs, htw, Except.ok.injEq, Prod.mk.injEq] at h
      exact ⟨sr, tw, rfl, rfl, h.1.symm, h.2.symm⟩

theorem shortageOf_neutral (sku stock units : Val)
    (h : sku.truthy = false ∨ stock.isNum = false) :
    shortageOf sku stock units = Except.ok (Val.str "", Val.num 0, Val.num 0) := by
  cases h with
  | inl h1 => simp [shortageOf, h1]
  | inr h2 => simp [shortageOf, h2]

theorem shortageOf_ge (sku : Val) (st u : ℚ) (hsku : sku.truthy = true) (h : u ≤ st) :
    shortageOf sku (Val.num st) (Val.num u) =
      Except.ok (Val.str "", Val.num 0, Val.num (st - u)) := by
  simp [shortageOf, hsku, Val.isNum, pyGE, pySub, h]

theorem shortageOf_lt (sku : Val) (st u : ℚ) (hsku : sku.truthy = true) (h : st < u) :
    shortageOf sku (Val.num st) (Val.num u) =
      Except.ok (Val.str "STOCK INSUFICIENTE", Val.num (u - st), Val.num 0) := by
  have hle : ¬ (u ≤ st) := not_le.mpr h
  have habs : abs (st - u) = u - st := by
    rw [abs_of_neg (by linarith)]
    ring
  simp [shortageOf, hsku, Val.isNum, pyGE, pySub, hle, habs]

theorem shortage_neutral_char (sku stock : Val) (u : ℚ) (insuf falta extra : Val)
    (hneq : sku.truthy = false ∨ stock.isNum = false)
    (hi : insuf = Val.str "") (hf : falta = Val.num 0) (he : extra = Val.num 0) :
    ((insuf = Val.str "STOCK INSUFICIENTE") ↔
      (sku.truthy = true ∧ ∃ s, stock = Val.num s ∧ s < u)) ∧
    (∀ s, stock = Val.num s → sku.truthy = true → s < u →
      falta = Val.num (u - s) ∧ extra = Val.num 0) ∧
    ((sku.truthy = false ∨ stock.isNum = false) →
      insuf = Val.str "" ∧ falta = Val.num 0 ∧ extra = Val.num 0) ∧
    (∀ s, stock = Val.num s → sku.truthy = true → u ≤ s →
      insuf = Val.str "" ∧ falta = Val.num 0 ∧ extra = Val.num (s - u)) := by
  subst hi hf he
  refine ⟨⟨fun hh => absurd hh (by decide), fun hh => ?_⟩,
    fun s hsr htr hlt => ?_, fun _ => ⟨rfl, rfl, rfl⟩, fun s hsr htr hle => ?_⟩
  · obtain ⟨htr, s, hsr, _⟩ := hh
    cases hneq with
    | inl h1 => rw [htr] at h1; cases h1
    | inr h1 => rw [hsr] at h1; simp [Val.isNum] at h1
  · cases hneq with
    | inl h1 => rw [htr] at h1; cases h1
    | inr h1 => rw [hsr] at h1; simp [Val.isNum] at h1
  · cases hneq with
    | inl h1 => rw [htr] at h1; cases h1
    | inr h1 => rw [hsr] at h1; simp [Val.isNum] at h1

theorem shortage_characterization (sku stock : Val) (u : ℚ) (insuf falta extra : Val)
    (hs : shortageOf sku stock (Val.num u) = Except.ok (insuf, falta, extra)) :
    ((insuf = Val.str "STOCK INSUFICIENTE") ↔
      (sku.truthy = true ∧ ∃ s, stock = Val.num s ∧ s < u)) ∧
    (∀ s, stock = Val.num s → sku.truthy = true → s < u →
      falta = Val.num (u - s) ∧ extra = Val.num 0) ∧
    ((sku.truthy = false ∨ stock.isNum = false) →
      insuf = Val.str "" ∧ falta = Val.num 0 ∧ extra = Val.num 0) ∧
    (∀ s, stock = Val.num s → sku.truthy = true → u ≤ s →
      insuf = Val.str "" ∧ falta = Val.num 0 ∧ extra = Val.num (s - u)) := by
  by_cases hsku : sku.truthy = true
  · cases hstock : stock with
    | num st =>
      subst hstock
      rcases le_or_lt u st with hle | hlt
      · rw [shortageOf_ge _ _ _ hsku hle] at hs
        simp only [Except.ok.injEq, Prod.mk.injEq] at hs
        obtain ⟨hi, hf, he⟩ := hs
        subst hi hf he
        refine ⟨⟨fun hh => absurd hh (by decide), fun hh => ?_⟩,
          fun s hsr _ hlt2 => ?_, fun hh => ?_, fun s hsr _ _ => ?_⟩
        · obtain ⟨_, s, hsr, hlt2⟩ := hh
          injection hsr with he2
          subst he2
          exact absurd hlt2 (not_lt.mpr hle)
        · injection hsr with he2
          subst he2
          exact absurd hlt2 (not_lt.mpr hle)
        · cases hh with
          | inl h1 => rw [hsku] at h1; cases h1
          | inr h1 => simp [Val.isNum] at h1
        · injection hsr with he2
          subst he2
          exact ⟨rfl, rfl, rfl⟩
      · rw [shortageOf_lt _ _ _ hsku hlt] at hs
        simp only [Except.ok.injEq, Prod.mk.injEq] at hs
        obtain ⟨hi, hf, he⟩ := hs
        subst hi hf he
        refine ⟨⟨fun _ => ⟨hsku, st, rfl, hlt⟩, fun _ => rfl⟩,
          fun s hsr _ _ => ?_, fun hh => ?_, fun s hsr _ hle => ?_⟩
        · injection hsr with he2
          subst he2
          exact ⟨rfl, rfl⟩
        · cases hh with
          | inl h1 => rw [hsku] at h1; cases h1
          | inr h1 => simp [Val.isNum] at h1
        · injection hsr with he2
          subst he2
          exact absurd hle (not_le.mpr hlt)
    | none =>
      subst hstock
      rw [shortageOf_neutral sku Val.none (Val.num u) (Or.inr rfl)] at hs
      simp only [Except.ok.injEq, Prod.mk.injEq] at hs
      obtain ⟨hi, hf, he⟩ := hs
      exact shortage_neutral_char sku Val.none u _ _ _ (Or.inr rfl) hi.symm hf.symm he.symm
    | str s0 =>
      subst hstock
      rw [shortageOf_neutral sku (Val.str s0) (Val.num u) (Or.inr rfl)] at hs
      simp only [Except.ok.injEq, Prod.mk.injEq] at hs
      obtain ⟨hi, hf, he⟩ := hs
      exact shortage_neutral_char sku (Val.str s0) u _ _ _ (Or.inr rfl) hi.symm hf.symm he.symm
  · have hsku' : sku.truthy = false := by
      cases h : sku.truthy
      · rfl
      · exact absurd h hsku
    rw [shortageOf_neutral _ _ _ (Or.inl hsku')] at hs
    simp only [Except.ok.injEq, Prod.mk.injEq] at hs
    obtain ⟨hi, hf, he⟩ := hs
    exact shortage_neutral_char _ _ _ _ _ _ (Or.inl hsku') hi.symm hf.symm he.symm

/-! Claim C1. -/

/-- C1: for every resolved line whose Units value is a number `u`, the
shortage flag is set iff the line's SKU is truthy (non-empty) and its stock
is numeric with stock < units; exactly then Falta = units − stock and
Extra = 0; with an empty SKU or non-numeric stock all three shortage fields
are neutral; and with numeric stock ≥ units there is no flag, Falta = 0 and
Extra = stock − units. -/
theorem c1_shortage_fields (lookup : Lookup) (it : Item) (sc : Val) (d : RowData) (u : ℚ)
    (hok : resolveItem lookup it = Except.ok (sc, d)) (hu : d.units = Val.num u) :
    ((d.insuf = Val.str "STOCK INSUFICIENTE") ↔
      (d.sku.truthy = true ∧ ∃ s, d.stockReal = Val.num s ∧ s < u)) ∧
    (∀ s, d.stockReal = Val.num s → d.sku.truthy = true → s < u →
      d.falta = Val.num (u - s) ∧ d.extra = Val.num 0) ∧
    ((d.sku.truthy = false ∨ d.stockReal.isNum = false) →
      d.insuf = Val.str "" ∧ d.falta = Val.num 0 ∧ d.extra = Val.num 0) ∧
    (∀ s, d.stockReal = Val.num s → d.sku.truthy = true → u ≤ s →
      d.insuf = Val.str "" ∧ d.falta = Val.num 0 ∧ d.extra = Val.num (s - u)) := by
  obtain ⟨sr, tw, hs, htw, hsc, hd⟩ := resolveItem_ok_elim lookup it sc d hok
  subst hd
  dsimp only at hu ⊢
  rw [hu] at hs
  exact shortage_characterization _ _ _ _ _ _ hs

def c1prod : Product :=
  ⟨Val.str "P1", Val.none, Val.str "Widget one", Val.str "S1", Val.num 3, Val.num 2,
   Option.none⟩

def c1lookup : Lookup := build_product_lookup [c1prod]

def c1item : Item := ⟨Val.str "P1", Val.none, some (Val.num 5), Val.none, Val.none, Val.none⟩

def c1row : RowData :=
  ⟨Val.str "Widget one", Val.str "S1", Val.num 5, Val.num 2, Val.num 10, Val.none,
   Val.num 3, Val.str "STOCK INSUFICIENTE", Val.num 2, Val.num 0⟩

/-- Witness for C1: a catalog line with stock 3 against 5 ordered units is
flagged, with Falta = 2 and Extra = 0. -/
theorem c1_shortage_fields_witness :
    resolveItem c1lookup c1item = Except.ok (Val.str "Sin línea de productos", c1row) ∧
    c1row.insuf = Val.str "STOCK INSUFICIENTE" ∧
    c1row.falta = Val.num 2 ∧ c1row.extra = Val.num 0 := by
  have hok : resolveItem c1lookup c1item =
      Except.ok (Val.str "Sin línea de productos", c1row) := by decide
  have h := c1_shortage_fields c1lookup c1item _ c1row 5 hok (by decide)
  have h2 := h.2.1 3 (by decide) (by decide) (by norm_num)
  refine ⟨hok, h.1.mpr ⟨by decide, 3, by decide, by norm_num⟩, ?_, h2.2⟩
  rw [h2.1]
  decide

/-! Claim C4. -/

/-- C4: for every resolved line, Total Weight is `None` exactly when the
unit weight or the units is falsy (zero, null or absent) — never 0 — and
when both are truthy numbers it equals unit weight × units rounded to 3
decimals. -/
theorem c4_total_weight (lookup : Lookup) (it : Item) (sc : Val) (d : RowData)
    (hok : resolveItem lookup it = Except.ok (sc, d)) :
    ((d.totalWeight = Val.none) ↔
      ¬(d.grossWeight.truthy = true ∧ d.units.truthy = true)) ∧
    (∀ w u, d.grossWeight = Val.num w → d.units = Val.num u → w ≠ 0 → u ≠ 0 →
      d.totalWeight = Val.num (roundTo 3 (w * u))) := by
  obtain ⟨sr, tw, hs, htw, hsc, hd⟩ := resolveItem_ok_elim lookup it sc d hok
  subst hd
  dsimp only
  unfold totalWeightOf at htw
  by_cases hg : ((resolveBranch lookup it).netW.truthy && (unitsOf it).truthy) = true
  · rw [if_pos hg] at htw
    have hab := hg
    rw [Bool.and_eq_true] at hab
    cases hmul : pyMul (resolveBranch lookup it).netW (unitsOf it) with
    | error e => simp only [hmul] at htw; cases htw
    | ok p =>
      simp only [hmul, Except.ok.injEq] at htw
      constructor
      · rw [← htw]
        exact ⟨fun hcontra => absurd hcontra (by simp), fun hcontra => absurd hab hcontra⟩
      · intro w u hw hu2 hwne hune
        rw [hw, hu2] at hmul
        simp only [pyMul, Except.ok.injEq] at hmul
        rw [← htw, ← hmul]
  · rw [if_neg hg] at htw
    simp only [Except.ok.injEq] at htw
    rw [Bool.and_eq_true] at hg
    constructor
    · rw [← htw]
      exact ⟨fun _ => hg, fun _ => rfl⟩
    · intro w u hw hu2 hwne hune
      refine absurd ⟨?_, ?_⟩ hg
      · rw [hw]; simp [Val.truthy, hwne]
      · rw [hu2]; simp [Val.truthy, hune]

def c4item : Item :=
  ⟨Val.none, Val.none, some (Val.num 4), Val.str "Thing", Val.none, Val.num (5 / 2)⟩

def c4row : RowData :=
  ⟨Val.str "Thing", Val.str "", Val.num 4, Val.num (5 / 2), Val.num 10, Val.none,
   Val.str "", Val.str "", Val.num 0, Val.num 0⟩

/-- Witness for C4: inline weight 2.5 across 4 units gives Total Weight
`round(2.5 * 4, 3) = 10`. -/
theorem c4_total_weight_witness :
    resolveItem [] c4item = Except.ok (Val.str "Sin línea de productos", c4row) ∧
    c4row.totalWeight = Val.num (roundTo 3 ((5 / 2 : ℚ) * 4)) ∧
    c4row.totalWeight = Val.num 10 := by
  have hok : resolveItem [] c4item =
      Except.ok (Val.str "Sin línea de productos", c4row) := by decide
  have h := (c4_total_weight [] c4item _ c4row hok).2 (5 / 2) 4 (by decide) (by decide)
    (by norm_num) (by norm_num)
  exact ⟨hok, h, by decide⟩

/-! Claim C8. -/

/-- C8: Branch B — identifier absent or not found in the catalog: the
resolved line uses the inline name and sku (each defaulting to the empty
string), the inline weight (defaulting to 0), the empty-string stock
(unknown, not zero), a null volume, the sentinel subcategory label, and
neutral shortage fields (no flag, Falta = 0, Extra = 0). -/
theorem c8_fallback (lookup : Lookup) (it : Item) (sc : Val) (d : RowData)
    (hmiss : lookupOf lookup it = Option.none)
    (hok : resolveItem lookup it = Except.ok (sc, d)) :
    d.product = pyOr it.name (Val.str "") ∧
    d.sku = pyOr it.sku (Val.str "") ∧
    d.grossWeight = pyOr it.weight (Val.num 0) ∧
    d.stockReal = Val.str "" ∧
    d.volume = Val.none ∧
    sc = Val.str "Sin línea de productos" ∧
    d.insuf = Val.str "" ∧ d.falta = Val.num 0 ∧ d.extra = Val.num 0 := by
  obtain ⟨sr, tw, hs, htw, hsc, hd⟩ := resolveItem_ok_elim lookup it sc d hok
  obtain ⟨i1, f1, e1⟩ := sr
  have hbr : resolveBranch lookup it =
      ⟨pyOr it.name (Val.str ""), pyOr it.sku (Val.str ""), Val.str "",
        pyOr it.weight (Val.num 0), initScan⟩ := by
    unfold resolveBranch
    rw [hmiss]
  subst hd
  rw [hbr] at hs hsc ⊢
  dsimp only at hs hsc ⊢
  rw [shortageOf_neutral _ (Val.str "") _ (Or.inr rfl)] at hs
  simp only [Except.ok.injEq, Prod.mk.injEq] at hs
  obtain ⟨hi, hf, he⟩ := hs
  exact ⟨rfl, rfl, rfl, rfl, rfl, hsc.trans rfl, hi.symm, hf.symm, he.symm⟩

def c8item : Item :=
  ⟨Val.str "NOPE", Val.none, some (Val.num 5), Val.str "Widget", Val.str "", Val.none⟩

def c8row : RowData :=
  ⟨Val.str "Widget", Val.str "", Val.num 5, Val.num 0, Val.none, Val.none,
   Val.str "", Val.str "", Val.num 0, Val.num 0⟩

/-- Witness for C8: the claim's fallback example — inline name "Widget",
empty sku, 5 units, productId not in the catalog. -/
theorem c8_fallback_witness :
    resolveItem [] c8item = Except.ok (Val.str "Sin línea de productos", c8row) ∧
    c8row.stockReal = Val.str "" ∧ c8row.insuf = Val.str "" ∧
    c8row.falta = Val.num 0 ∧ c8row.extra = Val.num 0 := by
  have hok : resolveItem [] c8item =
      Except.ok (Val.str "Sin línea de productos", c8row) := by decide
  have h := c8_fallback [] c8item _ c8row (by decide) hok
  exact ⟨hok, h.2.2.2.1, h.2.2.2.2.2.2.1, h.2.2.2.2.2.2.2.1, h.2.2.2.2.2.2.2.2⟩

/-! Claim C3. -/

/-- An attribute record whose name matches `nm` and whose value parses as a
number. -/
def isNumAttr (nm : String) (a : Attr) : Bool :=
  decide (dictGetD a "name" (Val.str "") = Val.str nm) &&
    (tryFloat (dictGet a "value")).isSome

theorem scanStep_ancho (st : ScanSt) (a : Attr) :
    (scanStep st a).ancho.isSome = (st.ancho.isSome || isNumAttr "Ancho [cm]" a) := by
  unfold scanStep isNumAttr
  by_cases hp : dictGetD a "name" (Val.str "") = Val.str "Product Line" ∨
      dictGetD a "name" (Val.str "") = Val.str "3. Product Line"
  all_goals cases h : tryFloat (dictGet a "value") with
  | none => simp [hp, h]
  | some v =>
    by_cases hA : dictGetD a "name" (Val.str "") = Val.str "Ancho [cm]"
    · simp [hp, h, hA]
    · by_cases hAl : dictGetD a "name" (Val.str "") = Val.str "Alto [cm]"
      · simp [hp, h, hA, hAl]
      · by_cases hF : dictGetD a "name" (Val.str "") = Val.str "Fondo [cm]"
        · simp [hp, h, hA, hAl, hF]
        · simp [hp, h, hA, hAl, hF]

theorem scanStep_alto (st : ScanSt) (a : Attr) :
    (scanStep st a).alto.isSome = (st.alto.isSome || isNumAttr "Alto [cm]" a) := by
  unfold scanStep isNumAttr
  by_cases hp : dictGetD a "name" (Val.str "") = Val.str "Product Line" ∨
      dictGetD a "name" (Val.str "") = Val.str "3. Product Line"
  all_goals cases h : tryFloat (dictGet a "value") with
  | none => simp [hp, h]
  | some v =>
    by_cases hA : dictGetD a "name" (Val.str "") = Val.str "Ancho [cm]"
    · have hAl : ¬ dictGetD a "name" (Val.str "") = Val.str "Alto [cm]" := by
        rw [hA]; decide
      simp [hp, h, hA, hAl]
    · by_cases hAl : dictGetD a "name" (Val.str "") = Val.str "Alto [cm]"
      · simp [hp, h, hA, hAl]
      · by_cases hF : dictGetD a "name" (Val.str "") = Val.str "Fondo [cm]"
        · simp [hp, h, hA, hAl, hF]
        · simp [hp, h, hA, hAl, hF]

theorem scanStep_fondo (st : ScanSt) (a : Attr) :
    (scanStep st a).fondo.isSome = (st.fondo.isSome || isNumAttr "Fondo [cm]" a) := by
  unfold scanStep isNumAttr
  by_cases hp : dictGetD a "name" (Val.str "") = Val.str "Product Line" ∨
      dictGetD a "name" (Val.str "") = Val.str "3. Product Line"
  all_goals cases h : tryFloat (dictGet a "value") with
  | none => simp [hp, h]
  | some v =>
    by_cases hA : dictGetD a "name" (Val.str "") = Val.str "Ancho [cm]"
    · have hF : ¬ dictGetD a "name" (Val.str "") = Val.str "Fondo [cm]" := by
        rw [hA]; decide
      simp [hp, h, hA, hF]
    · by_cases hAl : dictGetD a "name" (Val.str "") = Val.str "Alto [cm]"
      · have hF : ¬ dictGetD a "name" (Val.str "") = Val.str "Fondo [cm]" := by
          rw [hAl]; decide
        simp [hp, h, hA, hAl, hF]
      · by_cases hF : dictGetD a "name" (Val.str "") = Val.str "Fondo [cm]"
        · simp [hp, h, hA, hAl, hF]
        · simp [hp, h, hA, hAl, hF]

theorem scanAttrs_ancho (attrs : List Attr) (st : ScanSt) :
    (scanAttrs attrs st).ancho.isSome =
      (st.ancho.isSome || attrs.any (isNumAttr "Ancho [cm]")) := by
  induction attrs generalizing st with
  | nil => simp [scanAttrs]
  | cons a rest ih =>
    simp only [scanAttrs, List.any_cons]
    rw [ih, scanStep_ancho, Bool.or_assoc]

theorem scanAttrs_alto (attrs : List Attr) (st : ScanSt) :
    (scanAttrs attrs st).alto.isSome =
      (st.alto.isSome || attrs.any (isNumAttr "Alto [cm]")) := by
  induction attrs generalizing st with
  | nil => simp [scanAttrs]
  | cons a rest ih =>
    simp only [scanAttrs, List.any_cons]
    rw [ih, scanStep_alto, Bool.or_assoc]

theorem scanAttrs_fondo (attrs : List Attr) (st : ScanSt) :
    (scanAttrs attrs st).fondo.isSome =
      (st.fondo.isSome || attrs.any (isNumAttr "Fondo [cm]")) := by
  induction attrs generalizing st with
  | nil => simp [scanAttrs]
  | cons a rest ih =>
    simp only [scanAttrs, List.any_cons]
    rw [ih, scanStep_fondo, Bool.or_assoc]

theorem scanAttrs_ancho_init (attrs : List Attr) :
    (scanAttrs attrs initScan).ancho.isSome = attrs.any (isNumAttr "Ancho [cm]") := by
  rw [scanAttrs_ancho]
  rfl

theorem scanAttrs_alto_init (attrs : List Attr) :
    (scanAttrs attrs initScan).alto.isSome = attrs.any (isNumAttr "Alto [cm]") := by
  rw [scanAttrs_alto]
  rfl

theorem scanAttrs_fondo_init (attrs : List Attr) :
    (scanAttrs attrs initScan).fondo.isSome = attrs.any (isNumAttr "Fondo [cm]") := by
  rw [scanAttrs_fondo]
  rfl

/-- C3: for every order line resolved through the catalog (Branch A), the
resolved Volume is non-null iff each of the three dimension attributes
"Ancho [cm]", "Alto [cm]" and "Fondo [cm]" occurs in the product's
attribute list with a value that parses as numeric (a non-numeric value is
silently skipped, never an error); and when non-null the Volume is
width·height·depth / 1,000,000 rounded to 5 decimals, for the dimensions
the scan retained. -/
theorem c3_volume_dimensions (lookup : Lookup) (it : Item) (info : ProdInfo)
    (sc : Val) (d : RowData)
    (hinfo : lookupOf lookup it = some info)
    (hok : resolveItem lookup it = Except.ok (sc, d)) :
    ((d.volume ≠ Val.none) ↔
      ((info.attributes.getD []).any (isNumAttr "Ancho [cm]") = true ∧
       (info.attributes.getD []).any (isNumAttr "Alto [cm]") = true ∧
       (info.attributes.getD []).any (isNumAttr "Fondo [cm]") = true)) ∧
    (∀ a h f, (scanAttrs (info.attributes.getD []) initScan).ancho = some a →
      (scanAttrs (info.attributes.getD []) initScan).alto = some h →
      (scanAttrs (info.attributes.getD []) initScan).fondo = some f →
      d.volume = Val.num (roundTo 5 (a * h * f / 1000000))) := by
  obtain ⟨sr, tw, hs, htw, hsc, hd⟩ := resolveItem_ok_elim lookup it sc d hok
  have hbr : resolveBranch lookup it =
      ⟨info.product, info.sku, info.stockReal, info.weight,
        scanAttrs (info.attributes.getD []) initScan⟩ := by
    unfold resolveBranch
    rw [hinfo]
  subst hd
  rw [hbr]
  dsimp only
  constructor
  · rw [← scanAttrs_ancho_init (info.attributes.getD []),
      ← scanAttrs_alto_init (info.attributes.getD []),
      ← scanAttrs_fondo_init (info.attributes.getD [])]
    unfold volumeOf
    cases (scanAttrs (info.attributes.getD []) initScan).ancho <;>
      cases (scanAttrs (info.attributes.getD []) initScan).alto <;>
      cases (scanAttrs (info.attributes.getD []) initScan).fondo <;> simp
  · intro a h f hca hcl hcf
    unfold volumeOf
    rw [hca, hcl, hcf]

def c3attrs : List Attr :=
  [[("name", Val.str "Ancho [cm]"), ("value", Val.num 40)],
   [("name", Val.str "Alto [cm]"), ("value", Val.num 30)],
   [("name", Val.str "Fondo [cm]"), ("value", Val.num 25)]]

def c3prod : Product :=
  ⟨Val.str "P3", Val.none, Val.str "Box", Val.str "S3", Val.num 10, Val.num 1, some c3attrs⟩

def c3lookup : Lookup := build_product_lookup [c3prod]

def c3item : Item := ⟨Val.str "P3", Val.none, some (Val.num 2), Val.none, Val.none, Val.none⟩

def c3row : RowData :=
  ⟨Val.str "Box", Val.str "S3", Val.num 2, Val.num 1, Val.num 2, Val.num (3 / 100),
   Val.num 10, Val.str "", Val.num 0, Val.num 8⟩

/-- Witness for C3: dimensions 40 × 30 × 25 cm give a volume of
`(40·30·25)/1,000,000 = 0.03` m³. -/
theorem c3_volume_dimensions_witness :
    resolveItem c3lookup c3item = Except.ok (Val.str "Sin línea de productos", c3row) ∧
    c3row.volume = Val.num (roundTo 5 ((40 : ℚ) * 30 * 25 / 1000000)) ∧
    c3row.volume = Val.num (3 / 100) := by
  have hok : resolveItem c3lookup c3item =
      Except.ok (Val.str "Sin línea de productos", c3row) := by decide
  have h := (c3_volume_dimensions c3lookup c3item (infoOf c3prod) _ c3row (by decide)
    hok).2 40 30 25 (by decide) (by decide) (by decide)
  exact ⟨hok, h, by decide⟩

/-! Claim C7. -/

/-- Success test on an `Except` result. -/
def exceptOk {α β : Type} : Except α β → Bool
  | Except.ok _ => true
  | Except.error _ => false

theorem resolveItem_wf_ok (lookup : Lookup) (it : Item)
    (hu : ∃ u, unitsOf it = Val.num u)
    (hw : (resolveBranch lookup it).netW.truthy = true →
      (resolveBranch lookup it).netW.isNum = true) :
    ∃ y, resolveItem lookup it = Except.ok y := by
  obtain ⟨u, hu⟩ := hu
  have hs : ∃ sr, shortageOf (resolveBranch lookup it).sku (resolveBranch lookup it).stock
      (unitsOf it) = Except.ok sr := by
    rw [hu]
    by_cases hsku : (resolveBranch lookup it).sku.truthy = true
    · cases hstock : (resolveBranch lookup it).stock with
      | num st =>
        rcases le_or_lt u st with hle | hlt
        · exact ⟨_, shortageOf_ge _ _ _ hsku hle⟩
        · exact ⟨_, shortageOf_lt _ _ _ hsku hlt⟩
      | none => exact ⟨_, shortageOf_neutral _ Val.none _ (Or.inr rfl)⟩
      | str s0 => exact ⟨_, shortageOf_neutral _ (Val.str s0) _ (Or.inr rfl)⟩
    · have hsku' : (resolveBranch lookup it).sku.truthy = false := by
        cases hb : (resolveBranch lookup it).sku.truthy
        · rfl
        · exact absurd hb hsku
      exact ⟨_, shortageOf_neutral _ _ _ (Or.inl hsku')⟩
  have ht : ∃ tw, totalWeightOf (resolveBranch lookup it).netW (unitsOf it) =
      Except.ok tw := by
    unfold totalWeightOf
    by_cases hg : ((resolveBranch lookup it).netW.truthy && (unitsOf it).truthy) = true
    · rw [if_pos hg]
      rw [Bool.and_eq_true] at hg
      obtain ⟨w, hwv⟩ := (isNum_iff _).mp (hw hg.1)
      rw [hwv, hu]
      exact ⟨_, rfl⟩
    · rw [if_neg hg]
      exact ⟨Val.none, rfl⟩
  obtain ⟨sr, hs⟩ := hs
  obtain ⟨tw, ht⟩ := ht
  refine ⟨((resolveBranch lookup it).scan.subcat,
    ⟨(resolveBranch lookup it).productName, (resolveBranch lookup it).sku, unitsOf it,
     (resolveBranch lookup it).netW, tw, volumeOf (resolveBranch lookup it).scan,
     (resolveBranch lookup it).stock, sr.1, sr.2.1, sr.2.2⟩), ?_⟩
  unfold resolveItem
  simp only [hs, ht]

theorem resolveAll_wf_ok (lookup : Lookup) (items : List Item)
    (h : ∀ it ∈ items, ∃ y, resolveItem lookup it = Except.ok y) :
    ∃ rs, resolveAll lookup items = Except.ok rs := by
  induction items with
  | nil => exact ⟨[], rfl⟩
  | cons it rest ih =>
    obtain ⟨y, hy⟩ := h it (List.mem_cons_self it rest)
    obtain ⟨rs, hrs⟩ := ih (fun x hx => h x (List.mem_cons_of_mem it hx))
    refine ⟨y :: rs, ?_⟩
    unfold resolveAll
    rw [hy, hrs]

/-- C7 amended: the function raises a TypeError when the line-item container
is truthy (present and non-empty) but not a list; a falsy container is
treated as the empty list and returns the empty report; and a list container
returns normally provided each line's units value is numeric and each line's
resolved unit weight is numeric whenever it is truthy — otherwise the
per-line comparison or multiplication itself raises a TypeError, as the
counterexample shows. -/
theorem c7_typeerror_amended (lookup : Lookup) :
    (∀ v, v.truthy = true →
      ∃ e, get_products_info_for_row (Cell.scalar v) lookup = Except.error e) ∧
    (∀ v, v.truthy = false →
      get_products_info_for_row (Cell.scalar v) lookup = Except.ok ⟨reportCols, []⟩) ∧
    (∀ items, (∀ it ∈ items, (∃ u, unitsOf it = Val.num u) ∧
        ((resolveBranch lookup it).netW.truthy = true →
          (resolveBranch lookup it).netW.isNum = true)) →
      ∃ rep, get_products_info_for_row (Cell.list items) lookup = Except.ok rep) := by
  refine ⟨?_, ?_, ?_⟩
  · intro v hv
    refine ⟨"TypeError: row products must be a list", ?_⟩
    have hgi : getItems (Cell.scalar v) =
        Except.error "TypeError: row products must be a list" := by
      simp only [getItems]
      rw [if_pos hv]
    unfold get_products_info_for_row
    rw [hgi]
  · intro v hv
    have hgi : getItems (Cell.scalar v) = Except.ok [] := by
      simp only [getItems]
      rw [if_neg (by simp [hv])]
    unfold get_products_info_for_row
    rw [hgi]
    rfl
  · intro items hitems
    obtain ⟨rs, hrs⟩ := resolveAll_wf_ok lookup items
      (fun it hit => resolveItem_wf_ok lookup it (hitems it hit).1 (hitems it hit).2)
    have hgen : ∀ (c : Bool) (x y : Report),
        ∃ r, (if c = true then Except.ok x else Except.ok y : Except String Report) =
          Except.ok r := by
      intro c x y
      cases c
      · exact ⟨y, rfl⟩
      · exact ⟨x, rfl⟩
    simp only [get_products_info_for_row, getItems]
    rw [hrs]
    exact hgen _ _ _

def c7prod : Product :=
  ⟨Val.str "P7", Val.none, Val.str "Prod7", Val.str "S7", Val.num 10, Val.num 1,
   Option.none⟩

def c7item : Item := ⟨Val.str "P7", Val.none, some Val.none, Val.none, Val.none, Val.none⟩

/-- Counterexample to C7 as stated: the container is a proper list, yet the
call raises a TypeError, because the single line carries an explicit null
units value that is compared against the numeric catalog stock. -/
theorem c7_typeerror_counterexample :
    get_products_info_for_row (Cell.list [c7item]) (build_product_lookup [c7prod]) =
      Except.error "TypeError: comparison not supported" := by
  decide

/-- Witness for the amended C7: a truthy non-list container raises; the
empty list container returns a report. -/
theorem c7_typeerror_amended_witness :
    exceptOk (get_products_info_for_row (Cell.scalar (Val.str "x")) []) = false ∧
    exceptOk (get_products_info_for_row (Cell.list []) []) = true := by
  constructor
  · obtain ⟨e, he⟩ := (c7_typeerror_amended []).1 (Val.str "x") (by decide)
    rw [he]
    rfl
  · obtain ⟨rep, hrep⟩ := (c7_typeerror_amended []).2.2 [] (by simp)
    rw [hrep]
    rfl

/-! Claim C6. -/

theorem sum_filterMap_getD (l : List (Option ℚ)) :
    (l.filterMap id).sum = (l.map (fun o => o.getD 0)).sum := by
  induction l with
  | nil => rfl
  | cons o rest ih =>
    cases o with
    | none => simpa using ih
    | some q => simp [ih]

theorem fillCell_rawSubCell (vals : List Val) (nd : ℕ) :
    fillCell (rawSubCell vals nd) =
      Val.num (roundTo nd ((vals.map (fun v => (tryFloat v).getD 0)).sum)) := by
  have hT : ((vals.map tryFloat).filterMap id).sum =
      (vals.map (fun v => (tryFloat v).getD 0)).sum := by
    rw [sum_filterMap_getD, List.map_map]
    rfl
  simp only [rawSubCell, sumMinCount1]
  by_cases hemp : ((vals.map tryFloat).filterMap id).isEmpty = true
  · rw [if_pos hemp]
    have h0 : ((vals.map tryFloat).filterMap id).sum = 0 := by
      rw [List.isEmpty_iff] at hemp
      rw [hemp]
      rfl
    rw [← hT, h0, roundTo_zero]
    rfl
  · rw [if_neg hemp, ← hT]
    simp only [orZero]
    split
    · next hzero =>
      by_cases hc : ((vals.map tryFloat).filterMap id).sum = 0
      · rw [if_pos hc] at hzero
        cases hzero
      · rw [if_neg hc] at hzero
        cases hzero
    · next v hnz =>
      by_cases hc : ((vals.map tryFloat).filterMap id).sum = 0
      · rw [if_pos hc] at hnz
        injection hnz with hv
        rw [← hv, hc]
        rfl
      · rw [if_neg hc] at hnz
        injection hnz with hv
        rw [← hv]
        rfl

theorem sum_map_insertBySku (f : RowData → ℚ) (d : RowData) (l : List RowData) :
    ((insertBySku d l).map f).sum = f d + (l.map f).sum := by
  induction l with
  | nil => simp [insertBySku]
  | cons e rest ih =>
    unfold insertBySku
    split
    · simp only [List.map_cons, List.sum_cons, ih]
      ring
    · simp

theorem sum_map_sortBySku (f : RowData → ℚ) (l : List RowData) :
    ((sortBySku l).map f).sum = (l.map f).sum := by
  induction l with
  | nil => rfl
  | cons d rest ih => simp [sortBySku, sum_map_insertBySku, ih]

theorem subCell_eq (proj : RowData → Val) (nd : ℕ) (prods : List RowData) :
    fillCell (rawSubCell ((sortBySku prods).map proj) nd) =
      Val.num (roundTo nd ((prods.map (fun d => (tryFloat (proj d)).getD 0)).sum)) := by
  rw [fillCell_rawSubCell]
  congr 2
  rw [List.map_map]
  exact sum_map_sortBySku (fun d => (tryFloat (proj d)).getD 0) prods

theorem isPrefixB_self_append (p r : List Char) : isPrefixB p (p ++ r) = true := by
  induction p with
  | nil => rfl
  | cons c cs ih => simp [isPrefixB, ih]

theorem isInfixB_of_isPrefixB (p l : List Char) (h : isPrefixB p l = true) :
    isInfixB p l = true := by
  cases l with
  | nil => exact h
  | cons c rest => simp [isInfixB, h]

theorem isInfixB_append_left (p A l : List Char) (h : isInfixB p l = true) :
    isInfixB p (A ++ l) = true := by
  induction A with
  | nil => exact h
  | cons c cs ih => simp [isInfixB, ih]

theorem containsSubtotal_subLabel (sc : Val) :
    containsSubtotal (Val.str (subLabel sc)) = true := by
  show isInfixB "Subtotal".data (subLabel sc).data = true
  have hsplit : (subLabel sc).data =
      "                         ".data ++ ("Subtotal".data ++ (" " ++ pyStr sc).data) := by
    unfold subLabel
    rw [String.data_append]
    have h1 : ("                         Subtotal " : String) =
        "                         " ++ "Subtotal" ++ " " := by decide
    rw [h1, String.data_append, String.data_append, List.append_assoc]
    rw [String.data_append]
    simp
  rw [hsplit]
  exact isInfixB_append_left _ _ _
    (isInfixB_of_isPrefixB _ _ (isPrefixB_self_append _ _))

theorem fillIf_subtotalRow (sc : Val) (prods : List RowData) :
    fillIf (subtotalRowMk sc prods) = fillSubRow (subtotalRowMk sc prods) := by
  unfold fillIf
  rw [if_pos]
  exact containsSubtotal_subLabel sc

/-- C6 amended: for every group of the produced report, the subtotal row's
Subtotal > Units equals the sum of the member rows' Units — a non-numeric or
absent Units contributing 0 — rounded to 1 decimal place; the analogous
null-safe sums hold for Subtotal > Total Weight (2 decimals),
Subtotal > Volume (5 decimals) and Subtotal > Falta (0 decimals); the
subtotal value is never null or blank (an all-null column sums to 0); and
the non-subtotal columns of the subtotal row are left blank. -/
theorem c6_subtotal_amended (cell : Cell) (lookup : Lookup) (items : List Item)
    (resolved : List (Val × RowData)) (rep : Report) (sc : Val) (prods : List RowData)
    (hitems : getItems cell = Except.ok items)
    (hres : resolveAll lookup items = Except.ok resolved)
    (hrep : get_products_info_for_row cell lookup = Except.ok rep)
    (hmem : (sc, prods) ∈ groupedOf resolved) :
    fillSubRow (subtotalRowMk sc (sortBySku prods)) ∈ rep.rows ∧
    (fillSubRow (subtotalRowMk sc (sortBySku prods))).subUnits =
      Val.num (roundTo 1 ((prods.map (fun d => (tryFloat d.units).getD 0)).sum)) ∧
    (fillSubRow (subtotalRowMk sc (sortBySku prods))).subTotalWeight =
      Val.num (roundTo 2 ((prods.map (fun d => (tryFloat d.totalWeight).getD 0)).sum)) ∧
    (fillSubRow (subtotalRowMk sc (sortBySku prods))).subVolume =
      Val.num (roundTo 5 ((prods.map (fun d => (tryFloat d.volume).getD 0)).sum)) ∧
    (fillSubRow (subtotalRowMk sc (sortBySku prods))).subFalta =
      Val.num (roundTo 0 ((prods.map (fun d => (tryFloat d.falta).getD 0)).sum)) ∧
    (fillSubRow (subtotalRowMk sc (sortBySku prods))).sku = Val.str "" ∧
    (fillSubRow (subtotalRowMk sc (sortBySku prods))).units = Val.str "" ∧
    (fillSubRow (subtotalRowMk sc (sortBySku prods))).grossWeight = Val.str "" ∧
    (fillSubRow (subtotalRowMk sc (sortBySku prods))).totalWeight = Val.str "" ∧
    (fillSubRow (subtotalRowMk sc (sortBySku prods))).volume = Val.str "" ∧
    (fillSubRow (subtotalRowMk sc (sortBySku prods))).stockReal = Val.str "" ∧
    (fillSubRow (subtotalRowMk sc (sortBySku prods))).insuf = Val.str "" ∧
    (fillSubRow (subtotalRowMk sc (sortBySku prods))).falta = Val.str "" ∧
    (fillSubRow (subtotalRowMk sc (sortBySku prods))).extra = Val.str "" := by
  have hrow : subtotalRowMk sc (sortBySku prods) ∈
      ((groupedOf resolved).map (fun g => groupBlock g.1 g.2)).flatten := by
    apply List.mem_flatten.mpr
    refine ⟨groupBlock sc prods, List.mem_map.mpr ⟨(sc, prods), hmem, rfl⟩, ?_⟩
    unfold groupBlock
    simp
  have hout_ne : (((groupedOf resolved).map
      (fun g => groupBlock g.1 g.2)).flatten).isEmpty = false := by
    cases hconf : ((groupedOf resolved).map (fun g => groupBlock g.1 g.2)).flatten with
    | nil => rw [hconf] at hrow; cases hrow
    | cons a as => rfl
  have hrep2 : rep = ⟨reportCols,
      (((groupedOf resolved).map (fun g => groupBlock g.1 g.2)).flatten).map fillIf⟩ := by
    unfold get_products_info_for_row at hrep
    simp only [hitems, hres, hout_ne, Bool.false_eq_true, if_false,
      Except.ok.injEq] at hrep
    exact hrep.symm
  subst hrep2
  dsimp only
  refine ⟨?_, subCell_eq RowData.units 1 prods, subCell_eq RowData.totalWeight 2 prods,
    subCell_eq RowData.volume 5 prods, subCell_eq RowData.falta 0 prods,
    rfl, rfl, rfl, rfl, rfl, rfl, rfl, rfl, rfl⟩
  rw [← fillIf_subtotalRow]
  exact List.mem_map.mpr ⟨subtotalRowMk sc (sortBySku prods), hrow, rfl⟩

def c6item : Item :=
  ⟨Val.none, Val.none, some (Val.num 2), Val.str "Alpha", Val.str "SK1", Val.none⟩

def c6sc : Val := Val.str "Sin línea de productos"

def c6row : RowData :=
  ⟨Val.str "Alpha", Val.str "SK1", Val.num 2, Val.num 0, Val.none, Val.none,
   Val.str "", Val.str "", Val.num 0, Val.num 0⟩

def c6rep : Report :=
  ⟨reportCols, [headerRow c6sc, memberRow c6row, fillSubRow (subtotalRowMk c6sc [c6row])]⟩

/-- Witness for the amended C6: one member row with 2 units gives a filled
subtotal row with Subtotal > Units = 2 in the assembled report. -/
theorem c6_subtotal_amended_witness :
    get_products_info_for_row (Cell.list [c6item]) [] = Except.ok c6rep ∧
    fillSubRow (subtotalRowMk c6sc (sortBySku [c6row])) ∈ c6rep.rows ∧
    (fillSubRow (subtotalRowMk c6sc (sortBySku [c6row]))).subUnits = Val.num 2 := by
  have hrep : get_products_info_for_row (Cell.list [c6item]) [] = Except.ok c6rep := by
    decide
  have h := c6_subtotal_amended (Cell.list [c6item]) [] [c6item] [(c6sc, c6row)] c6rep
    c6sc [c6row] rfl (by decide) hrep (by decide)
  refine ⟨hrep, h.1, ?_⟩
  rw [h.2.1]
  decide

def c6citem : Item :=
  ⟨Val.none, Val.none, some (Val.num (63 / 50)), Val.str "A", Val.none, Val.none⟩

/-- Counterexample to C6 as stated: a single member row with Units = 1.26
yields Subtotal > Units = round(1.26, 1) = 1.3, which differs from the exact
sum 1.26 of the member rows' Units. -/
theorem c6_subtotal_counterexample :
    (get_products_info_for_row (Cell.list [c6citem]) []).map
      (fun r => r.rows.map Row.subUnits) =
      Except.ok [Val.str "", Val.none, Val.num (13 / 10)] ∧
    (get_products_info_for_row (Cell.list [c6citem]) []).map
      (fun r => r.rows.map Row.units) =
      Except.ok [Val.str "", Val.num (63 / 50), Val.str ""] ∧
    (13 : ℚ) / 10 ≠ 63 / 50 := by
  refine ⟨by decide, by decide, by norm_num⟩
